import Mathlib

/-!
Verification development for the multi-provider AI client layer of the
biped-infrastructure-enhancement repository (src/app/api_clients.py and
src/app/database.py), shallowly embedded in Lean 4.

Modelling conventions:
* Python exceptions are modelled with Except: a function that can raise
  returns Except String A, the String being str(e) of the raised exception.
* Wall-clock latency (response_time, a float) is not modelled; no claim
  under consideration depends on it.
* The circuit breaker is an external collaborator; only its observable
  gate (rejecting a call when the breaker is tripped) is modelled.
* Instrumentation: the orchestrator model additionally returns the list of
  providers that were attempted, and the adapter models additionally return
  a Bool recording whether the underlying network call was dispatched.
  These extra outputs are observation channels, not behaviour changes.
-/

/-- ASCII lowercase conversion, modelling str.lower() as applied by
BaseAPIClient._handle_error; all classification keywords are ASCII. -/
def charLower (c : Char) : Char :=
  if 65 ≤ c.toNat ∧ c.toNat ≤ 90 then Char.ofNat (c.toNat + 32) else c

/-- leadsWith pat l is true when pat is an initial segment of l. -/
def leadsWith : List Char → List Char → Bool
  | [], _ => true
  | _ :: _, [] => false
  | a :: as, b :: bs => a == b && leadsWith as bs

/-- hasSub pat l is true when pat occurs contiguously inside l,
modelling the Python substring test (pat in l). -/
def hasSub (pat : List Char) : List Char → Bool
  | [] => pat.isEmpty
  | c :: t => leadsWith pat (c :: t) || hasSub pat t

/-- Case-insensitive substring test: pat (given lowercase) occurs in
msg.lower().  Models the tests in BaseAPIClient._handle_error. -/
def lowerContains (msg pat : String) : Bool :=
  hasSub pat.data (msg.data.map charLower)

/-- The APIProvider enum of api_clients.py. -/
inductive APIProvider
  | openai
  | anthropic
deriving DecidableEq

/-- The .value string of each APIProvider member. -/
def pname : APIProvider → String
  | .openai => "openai"
  | .anthropic => "anthropic"

/-- The display name used in the missing-key APIClientError messages of
APIClientFactory.get_client. -/
def errName : APIProvider → String
  | .openai => "OpenAI"
  | .anthropic => "Anthropic"

/-- The APIResponse dataclass of api_clients.py (response_time omitted,
see the module comment).  data and error are Option to model the None
defaults of the dataclass fields. -/
structure APIResponse where
  success : Bool
  data : Option String
  error : Option String
  provider : Option String
  model : Option String
  tokensUsed : Option Nat
deriving DecidableEq

/-- An APIResponse as built by every branch of BaseAPIClient._handle_error:
success False, an error message, the provider tag, nothing else. -/
def mkFailure (e provider : String) : APIResponse :=
  { success := false, data := none, error := some e,
    provider := some provider, model := none, tokensUsed := none }

/-- BaseAPIClient._handle_error: classify str(error) by case-insensitive
substring match, first match winning, and build the failure APIResponse. -/
def handle_error (msg provider : String) : APIResponse :=
  if lowerContains msg "rate limit" then
    mkFailure "Rate limit exceeded" provider
  else if lowerContains msg "authentication" || lowerContains msg "unauthorized" then
    mkFailure "Authentication failed" provider
  else if lowerContains msg "quota" || lowerContains msg "billing" then
    mkFailure "API quota exceeded" provider
  else
    mkFailure ("API error: " ++ msg) provider

/-- The failure taxonomy of spec section 7.  The four constructors
rateLimited, authFailed, quotaExceeded, providerError correspond to the
four branches of _handle_error; serviceUnavailable is listed by the spec
(breaker open) and is included here so that claims about it can be
stated — the source has no branch producing it. -/
inductive FailureClass
  | rateLimited
  | authFailed
  | quotaExceeded
  | serviceUnavailable
  | providerError (msg : String)
deriving DecidableEq

/-- The branch of _handle_error selected for a given error message:
the classification function of the source, expressed on the taxonomy. -/
def classifyMsg (msg : String) : FailureClass :=
  if lowerContains msg "rate limit" then .rateLimited
  else if lowerContains msg "authentication" || lowerContains msg "unauthorized" then .authFailed
  else if lowerContains msg "quota" || lowerContains msg "billing" then .quotaExceeded
  else .providerError msg

/-- One chat message, as the dicts passed to generate_chat_completion. -/
structure Msg where
  role : String
  content : String
deriving DecidableEq

/-- The provider-native response, as consumed by the adapters: for
Anthropic, response.content is a list of blocks whose .text fields are
modelled directly; usage carries the token counts. -/
structure NativeResp where
  content : List String
  model : String
  inputTokens : Nat
  outputTokens : Nat
deriving DecidableEq

/-- Behaviour of one underlying provider-SDK call: a normal return or a
raised exception (carrying str(e)). -/
inductive NativeOutcome
  | ok (resp : NativeResp)
  | raise (e : String)
deriving DecidableEq

/-- Observable state of the per-provider circuit breaker collaborator:
tripped (rejects calls) or closed (passes them through).  A breaker that
is absent (get_anthropic_breaker returning None) behaves as closed. -/
inductive BreakerState
  | opened
  | closed
deriving DecidableEq

/-- AnthropicClient._make_request followed by the body of the try block of
generate_chat_completion, up to the point where a response is available:
when the breaker is tripped its CircuitBreakerError is converted to
APIClientError with the message below, which propagates into the
enclosing try.  The Bool records whether the network call was dispatched. -/
def anthropicChatBody (b : BreakerState) (call : List Msg → NativeOutcome)
    (messages : List Msg) : Except String NativeResp × Bool :=
  match b with
  | .opened => (Except.error "Anthropic service temporarily unavailable", false)
  | .closed =>
    match call messages with
    | .raise e => (Except.error e, true)
    | .ok resp => (Except.ok resp, true)

/-- AnthropicClient.generate_chat_completion: the try body above, then
response.content[0].text (an IndexError when content is empty is raised
inside the same try), with every exception routed to _handle_error.  The
outer Except is the channel a caller would observe an escaped exception
on; the Bool records whether a network call was dispatched. -/
def anthropicChat (b : BreakerState) (call : List Msg → NativeOutcome)
    (messages : List Msg) : Except String APIResponse × Bool :=
  match anthropicChatBody b call messages with
  | (Except.error e, att) => (Except.ok (handle_error e "anthropic"), att)
  | (Except.ok resp, att) =>
    match resp.content with
    | [] => (Except.ok (handle_error "list index out of range" "anthropic"), att)
    | t :: _ =>
      (Except.ok { success := true, data := some t, error := none,
                   provider := some "anthropic", model := some resp.model,
                   tokensUsed := some (resp.inputTokens + resp.outputTokens) }, att)

/-- AnthropicClient.generate_completion: wraps the prompt as a single
user message and delegates to generate_chat_completion unchanged. -/
def anthropicCompletion (b : BreakerState) (call : List Msg → NativeOutcome)
    (prompt : String) : Except String APIResponse × Bool :=
  anthropicChat b call [{ role := "user", content := prompt }]

/-- str(e) for the TypeError raised when OpenAIClient._make_request is
called.  In the source, _make_request is decorated with
pybreaker.CircuitBreakerError, which is an exception class, not a
decorator: the class-body assignment replaces the method with an
exception instance holding the function in its args, and calling
that instance raises TypeError.  The exact CPython text wraps the class name
in quotation marks, omitted here; neither form contains any
classification keyword, so handle_error is unaffected. -/
def tyCallMsg : String := "CircuitBreakerError object is not callable"

/-- OpenAIClient.generate_completion: the call to self._make_request
raises TypeError before any network dispatch (see tyCallMsg), the
enclosing except routes it to _handle_error.  The native call behaviour
is a parameter for signature fidelity but is never reached. -/
def openaiCompletion (_call : String → NativeOutcome) (_prompt : String) :
    Except String APIResponse × Bool :=
  (Except.ok (handle_error tyCallMsg "openai"), false)

/-- The synthetic aggregate failure built by UnifiedAPIClient when every
provider has failed.  Note provider is the present sentinel "unified". -/
def allFailedResponse : APIResponse :=
  { success := false, data := none, error := some "All AI providers failed",
    provider := some "unified", model := none, tokensUsed := none }

/-- The fallback loop shared by UnifiedAPIClient.generate_completion and
generate_chat_completion (their bodies are identical up to the adapter
operation invoked, which is absorbed into the attempt parameter: attempt
p is the outcome of obtaining the handle of p from the factory and
invoking the operation — Except.error e models an exception raised by
either step, caught by the per-provider handler).  Returns the final
APIResponse, the updated request counter, and the list of providers
attempted, in order. -/
def runFallback (attempt : APIProvider → Except String APIResponse) :
    List APIProvider → Nat → APIResponse × Nat × List APIProvider
  | [], c => (allFailedResponse, c, [])
  | p :: rest, c =>
    match attempt p with
    | Except.error _ =>
      let r := runFallback attempt rest c
      (r.1, r.2.1, p :: r.2.2)
    | Except.ok resp =>
      if resp.success then (resp, c + 1, [p])
      else
        let r := runFallback attempt rest c
        (r.1, r.2.1, p :: r.2.2)

/-- UnifiedAPIClient.generate_completion / generate_chat_completion entry
point: the attempt sequence is [primary] + fallback_providers. -/
def generateWithFallback (attempt : APIProvider → Except String APIResponse)
    (primary : APIProvider) (fallbacks : List APIProvider) (c : Nat) :
    APIResponse × Nat × List APIProvider :=
  runFallback attempt (primary :: fallbacks) c

/-- State of the class-level client cache of APIClientFactory: an
association list from cache key to handle identity, plus a counter
issuing fresh identities (a monotone stand-in for object identity, so
that a handle built after clear_clients is provably distinct from any
handle built before). -/
structure FactoryState where
  clients : List (String × Nat)
  nextId : Nat
deriving DecidableEq

/-- The factory cache at process start: empty. -/
def initFactory : FactoryState := { clients := [], nextId := 0 }

/-- The dict key built by APIClientFactory.get_client, f-string
provider_hash(api_key); hashFn models str(hash(.)), a deterministic
credential fingerprint. -/
def clientKey (hashFn : String → String) (p : APIProvider) (k : String) : String :=
  pname p ++ "_" ++ hashFn k

/-- Lookup in the clients association list (dict membership test plus
indexing of get_client). -/
def findId (k : String) : List (String × Nat) → Option Nat
  | [] => none
  | (k2, v) :: t => if k2 = k then some v else findId k t

/-- APIClientFactory.get_client: resolve the credential from the explicit
argument, else the provider environment variable (Python or-chaining;
none models an absent or empty value); raise APIClientError when both are
missing; otherwise return the cached handle for the key, creating one on
miss.  Construction reads base_url and model overrides as well, which do
not enter the cache key and are omitted.  Constructing a handle performs
no network activity. -/
def getClient (hashFn : String → String) (env : APIProvider → Option String)
    (st : FactoryState) (p : APIProvider) (apiKeyArg : Option String) :
    Except String (Nat × FactoryState) :=
  match (match apiKeyArg with | some k => some k | none => env p) with
  | none => Except.error (errName p ++ " API key not provided")
  | some k =>
    let ck := clientKey hashFn p k
    match findId ck st.clients with
    | some id => Except.ok (id, st)
    | none => Except.ok (st.nextId, { clients := (ck, st.nextId) :: st.clients,
                                      nextId := st.nextId + 1 })

/-- APIClientFactory.clear_clients: drop every cached handle. -/
def clearClients (st : FactoryState) : FactoryState :=
  { clients := [], nextId := st.nextId }

/-- Well-formedness of the factory cache: every issued identity is below
the counter, and no identity is issued twice.  Holds at initFactory and
is preserved by getClient. -/
def FactoryInv (st : FactoryState) : Prop :=
  (∀ pr ∈ st.clients, pr.2 < st.nextId) ∧ (st.clients.map Prod.snd).Nodup

/-- The Redis client collaborator of CacheManager, one Except-valued
field per call shape used; Except.error carries str(e) of a
redis.RedisError. -/
structure RedisStore where
  getV : String → Except String (Option String)
  setV : String → String → Nat → Except String Bool
  delV : String → Except String Nat
  keysV : String → Except String (List String)
  delKeys : List String → Except String Nat

/-- CacheManager._make_key: prepend the configured key prefix. -/
def makeKey (pre k : String) : String := pre ++ k

/-- CacheManager.get: fetch and json-decode, catching redis and decode
errors (loads models json.loads, its Except.error a JSONDecodeError).
The falsy test on the raw value makes an empty string behave as a miss.
The outer Except is the exception channel observable by the caller. -/
def cmGet {α : Type} (store : RedisStore) (loads : String → Except String α)
    (pre k : String) : Except String (Option α) :=
  match store.getV (makeKey pre k) with
  | Except.error _ => Except.ok none
  | Except.ok none => Except.ok none
  | Except.ok (some v) =>
    if v = "" then Except.ok none
    else
      match loads v with
      | Except.error _ => Except.ok none
      | Except.ok x => Except.ok (some x)

/-- CacheManager.set: resolve the ttl by Python or-chaining (an absent or
zero ttl falls back to the default), serialize (dumps models json.dumps,
its Except.error a TypeError), store; redis and serialization errors are
caught and yield False. -/
def cmSet {α : Type} (store : RedisStore) (dumps : α → Except String String)
    (dflt : Nat) (pre k : String) (v : α) (ttl : Option Nat) : Except String Bool :=
  let t := match ttl with
    | none => dflt
    | some n => if n = 0 then dflt else n
  match dumps v with
  | Except.error _ => Except.ok false
  | Except.ok s =>
    match store.setV (makeKey pre k) s t with
    | Except.error _ => Except.ok false
    | Except.ok b => Except.ok b

/-- CacheManager.delete: bool(count) of the redis delete, redis errors
caught and yielding False. -/
def cmDel (store : RedisStore) (pre k : String) : Except String Bool :=
  match store.delV (makeKey pre k) with
  | Except.error _ => Except.ok false
  | Except.ok n => Except.ok (n != 0)

/-- CacheManager.invalidate_pattern: list the matching keys, delete them
when any (an empty list is falsy and yields 0), redis errors from either
call caught and yielding 0. -/
def cmInvalPattern (store : RedisStore) (pre pat : String) : Except String Nat :=
  match store.keysV (makeKey pre pat) with
  | Except.error _ => Except.ok 0
  | Except.ok [] => Except.ok 0
  | Except.ok (k0 :: ks) =>
    match store.delKeys (k0 :: ks) with
    | Except.error _ => Except.ok 0
    | Except.ok n => Except.ok n

/-- The payload-exclusivity invariant of spec section 3 on APIResponse:
data present exactly when success, error present exactly when failure,
never both nor neither. -/
def wfResp (r : APIResponse) : Prop :=
  r.data.isSome = r.success ∧ r.error.isSome = !r.success ∧ r.data.isSome ≠ r.error.isSome

/-- Equality of modelled call outcomes is decidable, so that concrete
runs can be checked by evaluation. -/
instance {ε α : Type} [DecidableEq ε] [DecidableEq α] : DecidableEq (Except ε α) := fun a b =>
  match a, b with
  | Except.ok x, Except.ok y => decidable_of_iff (x = y) (by simp)
  | Except.error x, Except.error y => decidable_of_iff (x = y) (by simp)
  | Except.ok _, Except.error _ => isFalse (by simp)
  | Except.error _, Except.ok _ => isFalse (by simp)

/-- A successful Anthropic-style response, used as a concrete fixture. -/
def okResp : APIResponse :=
  { success := true, data := some "hello", error := none,
    provider := some "anthropic", model := some "claude-3", tokensUsed := some 3 }

/-- Concrete attempt outcomes: openai returns a failed APIResponse,
anthropic a successful one. -/
def attW : APIProvider → Except String APIResponse
  | .openai => Except.ok (mkFailure "API error: boom" "openai")
  | .anthropic => Except.ok okResp

/-- An attempt in which every provider raises. -/
def attErr : APIProvider → Except String APIResponse := fun _ => Except.error "boom"

/-- The message with which AnthropicClient._make_request converts a
CircuitBreakerError from the tripped breaker into APIClientError. -/
def svcMsg : String := "Anthropic service temporarily unavailable"

/-- Concrete attempt outcomes matching a tripped anthropic breaker
followed by an openai success. -/
def attBreaker : APIProvider → Except String APIResponse
  | .anthropic => Except.ok (handle_error svcMsg "anthropic")
  | .openai => Except.ok okResp

/-- A backing store in which every call fails. -/
def downStore : RedisStore :=
  { getV := fun _ => Except.error "down", setV := fun _ _ _ => Except.error "down",
    delV := fun _ => Except.error "down", keysV := fun _ => Except.error "down",
    delKeys := fun _ => Except.error "down" }

/-- A backing store that lists one key and then fails the bulk delete. -/
def halfStore : RedisStore :=
  { getV := fun _ => Except.ok none, setV := fun _ _ _ => Except.ok true,
    delV := fun _ => Except.ok 1, keysV := fun _ => Except.ok ["biped:a"],
    delKeys := fun _ => Except.error "down" }

/-- When every provider in the sequence fails (by exception or by a
failed APIResponse), the fallback loop attempts all of them, leaves the
counter unchanged and returns the synthetic aggregate. -/
theorem runFallback_all_fail (attempt : APIProvider → Except String APIResponse)
    (provs : List APIProvider) (c : Nat)
    (h : ∀ p ∈ provs, (∃ e, attempt p = Except.error e) ∨
         (∃ r, attempt p = Except.ok r ∧ r.success = false)) :
    runFallback attempt provs c = (allFailedResponse, c, provs) := by
  induction provs with
  | nil => simp [runFallback]
  | cons p t ih =>
    have ht : ∀ q ∈ t, (∃ e, attempt q = Except.error e) ∨
        (∃ r, attempt q = Except.ok r ∧ r.success = false) :=
      fun q hq => h q (List.mem_cons_of_mem p hq)
    rcases h p (List.mem_cons_self p t) with ⟨e, he⟩ | ⟨r, hr, hs⟩
    · simp [runFallback, he, ih ht]
    · simp [runFallback, hr, hs, ih ht]

/-- When each provider before pN fails with a returned APIResponse and
pN succeeds, the loop returns the success of pN, bumps the counter once
and attempts exactly the providers up to pN. -/
theorem runFallback_first_success (attempt : APIProvider → Except String APIResponse)
    (firsts : List APIProvider) (pN : APIProvider) (rest : List APIProvider)
    (c : Nat) (rN : APIResponse)
    (hfail : ∀ p ∈ firsts, ∃ r, attempt p = Except.ok r ∧ r.success = false)
    (hN : attempt pN = Except.ok rN) (hNs : rN.success = true) :
    runFallback attempt (firsts ++ pN :: rest) c = (rN, c + 1, firsts ++ [pN]) := by
  induction firsts with
  | nil => simp [runFallback, hN, hNs]
  | cons p t ih =>
    obtain ⟨r, hr, hs⟩ := hfail p (List.mem_cons_self p t)
    have := ih (fun q hq => hfail q (List.mem_cons_of_mem p hq))
    simp [runFallback, hr, hs, this]

/-- Claim C1: For every non-empty attempt sequence [primary] + fallbacks
in which the first N-1 providers return a failed CallResult and the Nth
returns a successful one, the orchestrator (generate_completion and
generate_chat_completion share this loop) returns that Nth success,
increments the request counter exactly once, and invokes no provider
after the Nth. -/
theorem fallback_returns_first_success (attempt : APIProvider → Except String APIResponse)
    (primary : APIProvider) (fallbacks firsts rest : List APIProvider)
    (pN : APIProvider) (c : Nat) (rN : APIResponse)
    (hseq : primary :: fallbacks = firsts ++ pN :: rest)
    (hfail : ∀ p ∈ firsts, ∃ r, attempt p = Except.ok r ∧ r.success = false)
    (hN : attempt pN = Except.ok rN) (hNs : rN.success = true) :
    generateWithFallback attempt primary fallbacks c = (rN, c + 1, firsts ++ [pN]) := by
  rw [generateWithFallback, hseq]
  exact runFallback_first_success attempt firsts pN rest c rN hfail hN hNs

/-- Witness for C1 at a concrete two-provider sequence. -/
theorem fallback_returns_first_success_witness :
    generateWithFallback attW APIProvider.openai [APIProvider.anthropic] 0 =
      (okResp, 0 + 1, [APIProvider.openai] ++ [APIProvider.anthropic]) :=
  fallback_returns_first_success attW APIProvider.openai [APIProvider.anthropic]
    [APIProvider.openai] [] APIProvider.anthropic 0 okResp rfl
    (by intro p hp; simp only [List.mem_singleton] at hp; subst hp
        exact ⟨mkFailure "API error: boom" "openai", rfl, rfl⟩)
    rfl rfl

/-- Claim C2 counterexample: when every provider fails, the synthetic
aggregate carries provider = "unified" — the provider field is present,
not absent as claimed. -/
theorem aggregate_provider_field_present :
    (runFallback attErr [APIProvider.openai] 0).1 = allFailedResponse ∧
    (runFallback attErr [APIProvider.openai] 0).1.provider = some "unified" ∧
    (runFallback attErr [APIProvider.openai] 0).1.provider ≠ none := by
  decide

/-- Claim C2 (amended): for every attempt sequence in which every
provider fails, the orchestrator returns the synthetic aggregate with
succeeded false and failureReason "All AI providers failed", the request
counter is not incremented — and the provider field is the present
sentinel "unified" rather than absent. -/
theorem fallback_exhaustion_aggregate (attempt : APIProvider → Except String APIResponse)
    (provs : List APIProvider) (c : Nat)
    (h : ∀ p ∈ provs, (∃ e, attempt p = Except.error e) ∨
         (∃ r, attempt p = Except.ok r ∧ r.success = false)) :
    runFallback attempt provs c = (allFailedResponse, c, provs) ∧
    allFailedResponse.success = false ∧
    allFailedResponse.error = some "All AI providers failed" ∧
    allFailedResponse.provider = some "unified" :=
  ⟨runFallback_all_fail attempt provs c h, rfl, rfl, rfl⟩

/-- Witness for the amended C2 at a concrete sequence and counter. -/
theorem fallback_exhaustion_aggregate_witness :
    runFallback attErr [APIProvider.openai] 5 =
      (allFailedResponse, 5, [APIProvider.openai]) ∧
    allFailedResponse.success = false ∧
    allFailedResponse.error = some "All AI providers failed" ∧
    allFailedResponse.provider = some "unified" :=
  fallback_exhaustion_aggregate attErr [APIProvider.openai] 5
    (by intro p hp; exact Or.inl ⟨"boom", rfl⟩)

/-- Claim C10: the Anthropic adapter completeText is exactly completeChat
applied to the single user message built from the prompt, with the same
options and breaker, for every behaviour of the native call. -/
theorem anthropic_completion_delegates (b : BreakerState)
    (call : List Msg → NativeOutcome) (prompt : String) :
    anthropicCompletion b call prompt =
      anthropicChat b call [{ role := "user", content := prompt }] := rfl

/-- Claim C5: for every behaviour of the underlying provider call
(normal return or raised exception) and every breaker state, the adapter
operations return an APIResponse on the ordinary return channel — no
exception escapes to the caller. -/
theorem adapter_total_no_exception (b : BreakerState)
    (call : List Msg → NativeOutcome) (messages : List Msg)
    (callO : String → NativeOutcome) (prompt promptA : String) :
    (∃ r, (openaiCompletion callO prompt).1 = Except.ok r) ∧
    (∃ r, (anthropicChat b call messages).1 = Except.ok r) ∧
    (∃ r, (anthropicCompletion b call promptA).1 = Except.ok r) := by
  refine ⟨⟨handle_error tyCallMsg "openai", rfl⟩, ?_, ?_⟩
  · unfold anthropicChat anthropicChatBody
    cases b
    · exact ⟨handle_error "Anthropic service temporarily unavailable" "anthropic", rfl⟩
    · cases hcall : call messages with
      | raise e => exact ⟨handle_error e "anthropic", rfl⟩
      | ok resp =>
        obtain ⟨cnt, mdl, it, ot⟩ := resp
        cases cnt with
        | nil => exact ⟨handle_error "list index out of range" "anthropic", rfl⟩
        | cons t ts =>
          exact ⟨{ success := true, data := some t, error := none,
                   provider := some "anthropic", model := some mdl,
                   tokensUsed := some (it + ot) }, rfl⟩
  · unfold anthropicCompletion anthropicChat anthropicChatBody
    cases b
    · exact ⟨handle_error "Anthropic service temporarily unavailable" "anthropic", rfl⟩
    · cases hcall : call [{ role := "user", content := promptA }] with
      | raise e => exact ⟨handle_error e "anthropic", rfl⟩
      | ok resp =>
        obtain ⟨cnt, mdl, it, ot⟩ := resp
        cases cnt with
        | nil => exact ⟨handle_error "list index out of range" "anthropic", rfl⟩
        | cons t ts =>
          exact ⟨{ success := true, data := some t, error := none,
                   provider := some "anthropic", model := some mdl,
                   tokensUsed := some (it + ot) }, rfl⟩

/-- Claim C4: failure classification is a deterministic function of the
error message alone, by case-insensitive substring match with first
match winning in the order rate limit, authentication/unauthorized,
quota/billing, catch-all; and the message "Rate limit exceeded for
requests" classifies as rate-limited, never as the catch-all. -/
theorem failure_classification_order (msg p1 p2 : String) :
    (lowerContains msg "rate limit" = true →
      handle_error msg p1 = mkFailure "Rate limit exceeded" p1) ∧
    (lowerContains msg "rate limit" = false →
      (lowerContains msg "authentication" || lowerContains msg "unauthorized") = true →
      handle_error msg p1 = mkFailure "Authentication failed" p1) ∧
    (lowerContains msg "rate limit" = false →
      (lowerContains msg "authentication" || lowerContains msg "unauthorized") = false →
      (lowerContains msg "quota" || lowerContains msg "billing") = true →
      handle_error msg p1 = mkFailure "API quota exceeded" p1) ∧
    (lowerContains msg "rate limit" = false →
      (lowerContains msg "authentication" || lowerContains msg "unauthorized") = false →
      (lowerContains msg "quota" || lowerContains msg "billing") = false →
      handle_error msg p1 = mkFailure ("API error: " ++ msg) p1) ∧
    (handle_error msg p1).error = (handle_error msg p2).error ∧
    handle_error "Rate limit exceeded for requests" p1 =
      mkFailure "Rate limit exceeded" p1 ∧
    classifyMsg "Rate limit exceeded for requests" = FailureClass.rateLimited := by
  refine ⟨?_, ?_, ?_, ?_, ?_, ?_, ?_⟩
  · intro h; simp [handle_error, h]
  · intro h1 h2; simp [handle_error, h1, h2]
  · intro h1 h2 h3; simp [handle_error, h1, h2, h3]
  · intro h1 h2 h3; simp [handle_error, h1, h2, h3]
  · unfold handle_error; split_ifs <;> rfl
  · have h : lowerContains "Rate limit exceeded for requests" "rate limit" = true := by decide
    simp [handle_error, h]
  · have h : lowerContains "Rate limit exceeded for requests" "rate limit" = true := by decide
    simp [classifyMsg, h]

/-- Witness for C4: the quota branch fires at a concrete message that
misses the two earlier branches. -/
theorem failure_classification_order_witness :
    handle_error "Monthly quota reached" "openai" =
      mkFailure "API quota exceeded" "openai" := by
  have h := failure_classification_order "Monthly quota reached" "openai" "openai"
  exact h.2.2.1 (by decide) (by decide) (by decide)

/-- Claim C3 counterexample: with the anthropic breaker tripped, the
adapter dispatches no network call, but the resulting failure is the
catch-all providerError classification of the breaker-conversion
message — not a serviceUnavailable classification; no branch of
_handle_error produces one. -/
theorem breaker_open_classified_catchall_cx :
    (anthropicChat BreakerState.opened (fun _ => NativeOutcome.raise "down") []).2 = false ∧
    (anthropicChat BreakerState.opened (fun _ => NativeOutcome.raise "down") []).1 =
      Except.ok (handle_error svcMsg "anthropic") ∧
    (handle_error svcMsg "anthropic").error = some ("API error: " ++ svcMsg) ∧
    classifyMsg svcMsg = FailureClass.providerError svcMsg ∧
    classifyMsg svcMsg ≠ FailureClass.serviceUnavailable :=
  ⟨rfl, rfl, by decide, by decide, by decide⟩

/-- Claim C3 (amended): for every call with the anthropic breaker
tripped, the adapter attempts no network call and returns a failed
CallResult; that failure is the catch-all providerError classification
of the breaker-conversion message (the source taxonomy has no
serviceUnavailable category); and the orchestrator proceeds to the next
fallback provider, returning its success. -/
theorem breaker_open_catchall_fallback
    (call : List Msg → NativeOutcome) (messages : List Msg)
    (attempt : APIProvider → Except String APIResponse) (c : Nat) (rB : APIResponse)
    (hA : attempt APIProvider.anthropic = Except.ok (handle_error svcMsg "anthropic"))
    (hB : attempt APIProvider.openai = Except.ok rB) (hBs : rB.success = true) :
    anthropicChat BreakerState.opened call messages =
      (Except.ok (handle_error svcMsg "anthropic"), false) ∧
    (handle_error svcMsg "anthropic").success = false ∧
    classifyMsg svcMsg = FailureClass.providerError svcMsg ∧
    runFallback attempt [APIProvider.anthropic, APIProvider.openai] c =
      (rB, c + 1, [APIProvider.anthropic, APIProvider.openai]) := by
  refine ⟨rfl, by decide, by decide, ?_⟩
  have h := runFallback_first_success attempt [APIProvider.anthropic] APIProvider.openai
    [] c rB
    (by intro p hp; simp only [List.mem_singleton] at hp; subst hp
        exact ⟨handle_error svcMsg "anthropic", hA, by decide⟩)
    hB hBs
  simpa using h

/-- Witness for the amended C3 at concrete inputs. -/
theorem breaker_open_catchall_fallback_witness :
    anthropicChat BreakerState.opened (fun _ => NativeOutcome.raise "down") [] =
      (Except.ok (handle_error svcMsg "anthropic"), false) ∧
    (handle_error svcMsg "anthropic").success = false ∧
    classifyMsg svcMsg = FailureClass.providerError svcMsg ∧
    runFallback attBreaker [APIProvider.anthropic, APIProvider.openai] 0 =
      (okResp, 0 + 1, [APIProvider.anthropic, APIProvider.openai]) :=
  breaker_open_catchall_fallback (fun _ => NativeOutcome.raise "down") []
    attBreaker 0 okResp rfl rfl rfl

/-- Every branch of _handle_error satisfies the exclusivity invariant. -/
theorem wf_handle_error (msg prov : String) : wfResp (handle_error msg prov) := by
  unfold handle_error
  split_ifs <;> simp [wfResp, mkFailure]

/-- The synthetic aggregate satisfies the exclusivity invariant. -/
theorem wf_allFailed : wfResp allFailedResponse := by
  simp [wfResp, allFailedResponse]

/-- Every APIResponse returned by the Anthropic chat adapter satisfies
the exclusivity invariant. -/
theorem wf_anthropicChat (b : BreakerState) (call : List Msg → NativeOutcome)
    (messages : List Msg) (r : APIResponse)
    (h : (anthropicChat b call messages).1 = Except.ok r) : wfResp r := by
  unfold anthropicChat anthropicChatBody at h
  cases b
  · simp only [Except.ok.injEq] at h
    exact h ▸ wf_handle_error svcMsg "anthropic"
  · cases hcall : call messages with
    | raise e =>
      rw [hcall] at h
      simp only [Except.ok.injEq] at h
      exact h ▸ wf_handle_error e "anthropic"
    | ok resp =>
      obtain ⟨cnt, mdl, it, ot⟩ := resp
      rw [hcall] at h
      cases cnt with
      | nil =>
        simp only [Except.ok.injEq] at h
        exact h ▸ wf_handle_error "list index out of range" "anthropic"
      | cons t ts =>
        simp only [Except.ok.injEq] at h
        subst h
        simp [wfResp]

/-- Every APIResponse emerging from the fallback loop satisfies the
exclusivity invariant, provided every attempt does. -/
theorem wf_runFallback (attempt : APIProvider → Except String APIResponse)
    (provs : List APIProvider) (c : Nat)
    (hwf : ∀ q r, attempt q = Except.ok r → wfResp r) :
    wfResp (runFallback attempt provs c).1 := by
  induction provs with
  | nil => simpa [runFallback] using wf_allFailed
  | cons p t ih =>
    cases hp : attempt p with
    | error e => simpa [runFallback, hp] using ih
    | ok resp =>
      by_cases hs : resp.success = true
      · simpa [runFallback, hp, hs] using hwf p resp hp
      · have hs2 : resp.success = false := by simpa using hs
        simpa [runFallback, hp, hs2] using ih

/-- Claim C8: every CallResult produced by _handle_error, by the adapter
operations, or by the orchestrator has its payload present exactly when
succeeded and its failure reason present exactly when not — one and only
one of the two (the orchestrator case assumes attempt outcomes satisfy
the invariant, which the adapter cases establish). -/
theorem callresult_exclusive_payload (msg prov : String) (b : BreakerState)
    (call : List Msg → NativeOutcome) (messages : List Msg)
    (callO : String → NativeOutcome) (prompt : String) (r2 r3 : APIResponse)
    (attempt : APIProvider → Except String APIResponse)
    (provs : List APIProvider) (c : Nat)
    (h2 : (anthropicChat b call messages).1 = Except.ok r2)
    (h3 : (openaiCompletion callO prompt).1 = Except.ok r3)
    (hwf : ∀ q r, attempt q = Except.ok r → wfResp r) :
    wfResp (handle_error msg prov) ∧ wfResp r2 ∧ wfResp r3 ∧
    wfResp (runFallback attempt provs c).1 := by
  refine ⟨wf_handle_error msg prov, wf_anthropicChat b call messages r2 h2, ?_,
    wf_runFallback attempt provs c hwf⟩
  unfold openaiCompletion at h3
  simp only [Except.ok.injEq] at h3
  exact h3 ▸ wf_handle_error tyCallMsg "openai"

/-- Witness for C8 at concrete adapter behaviours and an empty sequence. -/
theorem callresult_exclusive_payload_witness :
    wfResp (handle_error "boom" "openai") ∧
    wfResp (handle_error "down" "anthropic") ∧
    wfResp (handle_error tyCallMsg "openai") ∧
    wfResp (runFallback attErr [] 0).1 :=
  callresult_exclusive_payload "boom" "openai" BreakerState.closed
    (fun _ => NativeOutcome.raise "down") [] (fun _ => NativeOutcome.raise "x") "p"
    (handle_error "down" "anthropic") (handle_error tyCallMsg "openai") attErr [] 0
    rfl rfl (by intro q r h; simp [attErr] at h)

/-- String concatenation is left-cancellative. -/
theorem string_append_cancel_left (a s t : String) (h : a ++ s = a ++ t) : s = t := by
  have hd : (a ++ s).data = (a ++ t).data := congrArg String.data h
  rw [String.data_append, String.data_append] at hd
  exact String.ext (List.append_cancel_left hd)

/-- Distinct credential fingerprints give distinct cache keys for the
same provider. -/
theorem clientKey_ne (hashFn : String → String) (p : APIProvider) (c1 c2 : String)
    (hne : hashFn c1 ≠ hashFn c2) :
    clientKey hashFn p c1 ≠ clientKey hashFn p c2 := by
  intro hk
  apply hne
  unfold clientKey at hk
  rw [String.append_assoc, String.append_assoc] at hk
  exact string_append_cancel_left ("_") (hashFn c1) (hashFn c2)
    (string_append_cancel_left (pname p) _ _ hk)

/-- A successful lookup in the cache list is a membership. -/
theorem findId_mem (l : List (String × Nat)) (k : String) (v : Nat)
    (h : findId k l = some v) : (k, v) ∈ l := by
  induction l with
  | nil => simp [findId] at h
  | cons a t ih =>
    obtain ⟨k2, v2⟩ := a
    by_cases hk : k2 = k
    · subst hk
      simp [findId] at h
      subst h
      exact List.mem_cons_self _ _
    · simp [findId, hk] at h
      exact List.mem_cons_of_mem _ (ih h)

/-- In a list whose identities are pairwise distinct, one identity is
bound to at most one key. -/
theorem nodupSnd_eq (l : List (String × Nat)) (k1 k2 : String) (v : Nat)
    (hnd : (l.map Prod.snd).Nodup) (h1 : (k1, v) ∈ l) (h2 : (k2, v) ∈ l) :
    k1 = k2 := by
  induction l with
  | nil => cases h1
  | cons a t ih =>
    obtain ⟨ka, va⟩ := a
    rw [List.map_cons, List.nodup_cons] at hnd
    rcases List.mem_cons.mp h1 with h1h | h1t
    · rcases List.mem_cons.mp h2 with h2h | h2t
      · rw [Prod.mk.injEq] at h1h h2h
        rw [h1h.1, h2h.1]
      · exfalso
        rw [Prod.mk.injEq] at h1h
        have hv : v ∈ t.map Prod.snd := List.mem_map_of_mem Prod.snd h2t
        rw [h1h.2] at hv
        exact hnd.1 hv
    · rcases List.mem_cons.mp h2 with h2h | h2t
      · exfalso
        rw [Prod.mk.injEq] at h2h
        have hv : v ∈ t.map Prod.snd := List.mem_map_of_mem Prod.snd h1t
        rw [h2h.2] at hv
        exact hnd.1 hv
      · exact ih hnd.2 h1t h2t

/-- Lookup hit: get_client returns the cached identity unchanged. -/
theorem getClient_found (hashFn : String → String) (env : APIProvider → Option String)
    (st : FactoryState) (p : APIProvider) (k : String) (id : Nat)
    (h : findId (clientKey hashFn p k) st.clients = some id) :
    getClient hashFn env st p (some k) = Except.ok (id, st) := by
  unfold getClient
  simp [h]

/-- Lookup miss: get_client issues the next identity and records it. -/
theorem getClient_miss (hashFn : String → String) (env : APIProvider → Option String)
    (st : FactoryState) (p : APIProvider) (k : String)
    (h : findId (clientKey hashFn p k) st.clients = none) :
    getClient hashFn env st p (some k) =
      Except.ok (st.nextId, { clients := (clientKey hashFn p k, st.nextId) :: st.clients,
                              nextId := st.nextId + 1 }) := by
  unfold getClient
  simp [h]

/-- Inversion for a successful get_client with an explicit credential:
either a cache hit with the state unchanged, or a miss inserting a fresh
identity. -/
theorem getClient_ok_cases (hashFn : String → String) (env : APIProvider → Option String)
    (st : FactoryState) (p : APIProvider) (k : String) (id : Nat) (st2 : FactoryState)
    (h : getClient hashFn env st p (some k) = Except.ok (id, st2)) :
    (findId (clientKey hashFn p k) st.clients = some id ∧ st2 = st) ∨
    (findId (clientKey hashFn p k) st.clients = none ∧ id = st.nextId ∧
     st2 = { clients := (clientKey hashFn p k, id) :: st.clients, nextId := id + 1 }) := by
  cases hf : findId (clientKey hashFn p k) st.clients with
  | some j =>
    have hj := (getClient_found hashFn env st p k j hf).symm.trans h
    simp only [Except.ok.injEq, Prod.mk.injEq] at hj
    exact Or.inl ⟨congrArg some hj.1, hj.2.symm⟩
  | none =>
    have hj := (getClient_miss hashFn env st p k hf).symm.trans h
    simp only [Except.ok.injEq, Prod.mk.injEq] at hj
    refine Or.inr ⟨rfl, hj.1.symm, ?_⟩
    rw [← hj.2, hj.1]

/-- get_client with an explicit credential preserves the cache
invariant, and the returned identity is live in the returned state. -/
theorem getClient_post (hashFn : String → String) (env : APIProvider → Option String)
    (st : FactoryState) (p : APIProvider) (k : String) (id : Nat) (st2 : FactoryState)
    (hInv : FactoryInv st)
    (h : getClient hashFn env st p (some k) = Except.ok (id, st2)) :
    FactoryInv st2 ∧ id < st2.nextId ∧ (clientKey hashFn p k, id) ∈ st2.clients ∧
    findId (clientKey hashFn p k) st2.clients = some id ∧ st.nextId ≤ st2.nextId := by
  rcases getClient_ok_cases hashFn env st p k id st2 h with ⟨hf, rfl⟩ | ⟨hf, hid, rfl⟩
  · have hm := findId_mem _ _ _ hf
    exact ⟨hInv, hInv.1 _ hm, hm, hf, Nat.le_refl _⟩
  · subst hid
    refine ⟨⟨?_, ?_⟩, Nat.lt_succ_self _, List.mem_cons_self _ _, ?_, Nat.le_succ _⟩
    · intro pr hpr
      rcases List.mem_cons.mp hpr with hh | ht
      · rw [hh]
        exact Nat.lt_succ_self _
      · exact Nat.lt_succ_of_lt (hInv.1 pr ht)
    · rw [List.map_cons, List.nodup_cons]
      refine ⟨?_, hInv.2⟩
      intro hmem
      obtain ⟨pr, hpr, hsnd⟩ := List.mem_map.mp hmem
      exact Nat.lt_irrefl _ (hsnd ▸ hInv.1 pr hpr)
    · simp [findId]

/-- Claim C7: with a well-formed cache and distinct credential
fingerprints, a repeated getOrCreate for the same (provider, credential)
returns the identical handle and leaves the cache unchanged; a different
credential for the same provider yields a distinct handle; and clear()
followed by the original getOrCreate yields a fresh handle distinct from
the pre-clear one. -/
theorem client_registry_identity (hashFn : String → String)
    (env : APIProvider → Option String) (p : APIProvider) (c1 c2 : String)
    (st st1 st1b st2 st3 : FactoryState) (id1 id1b id2 id3 : Nat)
    (hInv : FactoryInv st) (hne : hashFn c1 ≠ hashFn c2)
    (h1 : getClient hashFn env st p (some c1) = Except.ok (id1, st1))
    (h1b : getClient hashFn env st1 p (some c1) = Except.ok (id1b, st1b))
    (h2 : getClient hashFn env st1 p (some c2) = Except.ok (id2, st2))
    (h3 : getClient hashFn env (clearClients st1) p (some c1) = Except.ok (id3, st3)) :
    id1b = id1 ∧ st1b = st1 ∧ id1 ≠ id2 ∧ id1 ≠ id3 := by
  obtain ⟨hInv1, hlt1, hmem1, hfind1, _⟩ :=
    getClient_post hashFn env st p c1 id1 st1 hInv h1
  have hkey := clientKey_ne hashFn p c1 c2 hne
  have hab := (getClient_found hashFn env st1 p c1 id1 hfind1).symm.trans h1b
  simp only [Except.ok.injEq, Prod.mk.injEq] at hab
  refine ⟨hab.1.symm, hab.2.symm, ?_, ?_⟩
  · rcases getClient_ok_cases hashFn env st1 p c2 id2 st2 h2 with ⟨hf2, _⟩ | ⟨_, hid2, _⟩
    · intro hcontra
      exact hkey (nodupSnd_eq st1.clients _ _ id1 hInv1.2 hmem1
        (hcontra ▸ findId_mem _ _ _ hf2))
    · subst hid2
      exact Nat.ne_of_lt hlt1
  · rcases getClient_ok_cases hashFn env (clearClients st1) p c1 id3 st3 h3 with
      ⟨hf3, _⟩ | ⟨_, hid3, _⟩
    · simp [clearClients, findId] at hf3
    · subst hid3
      exact Nat.ne_of_lt hlt1

/-- The cache invariant holds at process start. -/
theorem factoryInv_init : FactoryInv initFactory := by
  constructor
  · intro pr hpr
    simp [initFactory] at hpr
  · simp [initFactory]

/-- Witness for C7: concrete runs from the empty cache with identity as
the fingerprint function. -/
theorem client_registry_identity_witness :
    (0 : Nat) = 0 ∧
    ({ clients := [("openai_k1", 0)], nextId := 1 } : FactoryState) =
      { clients := [("openai_k1", 0)], nextId := 1 } ∧
    (0 : Nat) ≠ 1 ∧ (0 : Nat) ≠ 1 :=
  client_registry_identity (fun s => s) (fun _ => none) APIProvider.openai "k1" "k2"
    initFactory { clients := [("openai_k1", 0)], nextId := 1 }
    { clients := [("openai_k1", 0)], nextId := 1 }
    { clients := [("openai_k2", 1), ("openai_k1", 0)], nextId := 2 }
    { clients := [("openai_k1", 1)], nextId := 2 }
    0 0 1 1 factoryInv_init (by decide) (by decide) (by decide) (by decide) (by decide)

/-- Claim C6 counterexample: with no credential anywhere, get_client
raises APIClientError; inside the orchestrator this exception is caught
by the per-provider handler, the loop goes on to the next provider, and
the caller receives the ordinary aggregate failure — the
missing-credential error is folded into the fallback sequence, not
surfaced as an immediate failure. -/
theorem missing_credential_swallowed_cx :
    getClient (fun s => s) (fun _ => none) initFactory APIProvider.openai none =
      Except.error "OpenAI API key not provided" ∧
    runFallback (fun p => Except.error (errName p ++ " API key not provided"))
      [APIProvider.openai, APIProvider.anthropic] 0 =
      (allFailedResponse, 0, [APIProvider.openai, APIProvider.anthropic]) ∧
    allFailedResponse.error = some "All AI providers failed" :=
  ⟨rfl, rfl, rfl⟩

/-- Claim C6 (amended): when no credential is available from argument or
environment, get_client raises the missing-credential APIClientError
before any network activity; within the orchestrator, however, that
exception is caught by the per-provider handler and treated as a failed
attempt, so it is folded into the fallback sequence and never surfaced to
the orchestrator caller — when every attempt raises, the caller receives
the ordinary AllProvidersFailed aggregate with the counter unchanged.
Only a direct caller of the registry observes the error. -/
theorem missing_credential_folded (hashFn : String → String)
    (env : APIProvider → Option String) (st : FactoryState) (p : APIProvider)
    (attempt : APIProvider → Except String APIResponse)
    (provs : List APIProvider) (c : Nat)
    (henv : env p = none)
    (hAll : ∀ q ∈ provs, ∃ e, attempt q = Except.error e) :
    getClient hashFn env st p none = Except.error (errName p ++ " API key not provided") ∧
    runFallback attempt provs c = (allFailedResponse, c, provs) := by
  constructor
  · unfold getClient
    rw [henv]
  · exact runFallback_all_fail attempt provs c
      (fun q hq => Or.inl (hAll q hq))

/-- Witness for the amended C6 at concrete inputs. -/
theorem missing_credential_folded_witness :
    getClient (fun s => s) (fun _ => none) initFactory APIProvider.openai none =
      Except.error (errName APIProvider.openai ++ " API key not provided") ∧
    runFallback attErr [APIProvider.anthropic] 0 =
      (allFailedResponse, 0, [APIProvider.anthropic]) :=
  missing_credential_folded (fun s => s) (fun _ => none) initFactory
    APIProvider.openai attErr [APIProvider.anthropic] 0 rfl
    (by intro q hq; exact ⟨"boom", rfl⟩)

/-- Claim C9: every result-cache operation is best-effort — whenever the
backing store fails (a redis error on the underlying call), the
operation swallows the error, propagates nothing, and returns the benign
default: absent for get, False for set and delete, zero for
invalidate_pattern (shown both for a failing key listing and for a
failing bulk delete). -/
theorem cache_best_effort {α : Type} (store store2 : RedisStore)
    (loads : String → Except String α) (dumps : α → Except String String)
    (dflt : Nat) (pre k pat : String) (v : α) (ttl : Option Nat)
    (e1 e2 e3 e4 e5 : String) (ks : List String) (k0 : String)
    (h1 : store.getV (makeKey pre k) = Except.error e1)
    (h2 : ∀ s t, store.setV (makeKey pre k) s t = Except.error e2)
    (h3 : store.delV (makeKey pre k) = Except.error e3)
    (h4 : store.keysV (makeKey pre pat) = Except.error e4)
    (h5 : store2.keysV (makeKey pre pat) = Except.ok (k0 :: ks))
    (h6 : store2.delKeys (k0 :: ks) = Except.error e5) :
    cmGet store loads pre k = Except.ok none ∧
    cmSet store dumps dflt pre k v ttl = Except.ok false ∧
    cmDel store pre k = Except.ok false ∧
    cmInvalPattern store pre pat = Except.ok 0 ∧
    cmInvalPattern store2 pre pat = Except.ok 0 := by
  refine ⟨?_, ?_, ?_, ?_, ?_⟩
  · unfold cmGet
    rw [h1]
  · unfold cmSet
    cases hd : dumps v with
    | error e => rfl
    | ok s => simp [h2]
  · unfold cmDel
    rw [h3]
  · unfold cmInvalPattern
    rw [h4]
  · unfold cmInvalPattern
    rw [h5]
    simp [h6]

/-- Witness for C9 at concrete failing stores. -/
theorem cache_best_effort_witness :
    cmGet downStore (fun _ => Except.ok (0 : Nat)) "biped:" "k" = Except.ok none ∧
    cmSet downStore (fun n => Except.ok (toString n)) 3600 "biped:" "k" (0 : Nat) none =
      Except.ok false ∧
    cmDel downStore "biped:" "k" = Except.ok false ∧
    cmInvalPattern downStore "biped:" "a" = Except.ok 0 ∧
    cmInvalPattern halfStore "biped:" "a" = Except.ok 0 :=
  cache_best_effort downStore halfStore (fun _ => Except.ok (0 : Nat))
    (fun n => Except.ok (toString n)) 3600 "biped:" "k" "a" 0 none
    "down" "down" "down" "down" "down" [] "biped:a"
    rfl (fun _ _ => rfl) rfl rfl rfl rfl
